import Mathlib

/-!
# Verification of the easygit npm bootstrap installer/launcher

Shallow embedding of the easygit npm distribution scripts:

* the postinstall installer (`src/unnamed/part_000`): platform/arch
  resolution, download-URL construction, HTTPS fetch with bounded redirect
  following, extraction dispatch, permission normalization, cleanup;
* the two launchers (`src/npm/bin/easygit.js` and `src/unnamed/part_001`):
  candidate-path search and child exit/signal propagation.

Pure computations become Lean functions; the effectful install pipeline is
modelled as a function from an environment record to an event trace plus a
process exit code, and the HTTP server is modelled as the list of responses
it would produce for the successive requests of one download attempt.
-/

/-- `PLATFORM_MAP` from the installer: raw `process.platform` values to the
canonical platform names used in release archive filenames. -/
def PLATFORM_MAP : String → Option String
  | "darwin" => some "macos"
  | "linux" => some "linux"
  | "win32" => some "windows"
  | _ => none

/-- `ARCH_MAP` from the installer: raw `process.arch` values to canonical
architecture names. -/
def ARCH_MAP : String → Option String
  | "x64" => some "x64"
  | "arm64" => some "arm64"
  | _ => none

/-- The installer's platform resolution step: look up both raw identifiers;
if either lookup fails (`!platform || !arch`) the installer reports the
literal raw values and exits. -/
def resolvePlatformArch (rawPlatform rawArch : String) :
    Except (String × String) (String × String) :=
  match PLATFORM_MAP rawPlatform, ARCH_MAP rawArch with
  | some p, some a => Except.ok (p, a)
  | _, _ => Except.error (rawPlatform, rawArch)

/-- `` tag = `v${pkg.version}` `` in the installer. -/
def releaseTag (version : String) : String := "v" ++ version

/-- `` archiveName = `easygit-${platform}-${arch}${isWindows ? '.zip' : '.tar.gz'}` ``
in the installer; `isWindows` is `process.platform === 'win32'`. -/
def archiveName (platform arch : String) (isWindows : Bool) : String :=
  "easygit-" ++ platform ++ "-" ++ arch ++ (if isWindows then ".zip" else ".tar.gz")

/-- `` downloadUrl = `${binaryHost}/${tag}/${archiveName}` `` in the installer. -/
def downloadUrl (host version platform arch : String) (isWindows : Bool) : String :=
  host ++ "/" ++ releaseTag version ++ "/" ++ archiveName platform arch isWindows

/-- Spec-side `ReleaseLocator`: pure function `(host, version, platform, arch)`
to URL, with the archive extension chosen solely by the canonical platform
(`windows` gives `.zip`, anything else `.tar.gz`), stated for comparison
against the installer's `downloadUrl`. -/
def ReleaseLocator (host version platform arch : String) : String :=
  host ++ "/v" ++ version ++ "/easygit-" ++ platform ++ "-" ++ arch ++
    (if platform == "windows" then ".zip" else ".tar.gz")

/-- One HTTP response as the fetcher inspects it: the status code and the
optional `Location` header. -/
structure Response where
  status : Nat
  location : Option String
deriving DecidableEq, Repr

/-- The fetcher's failure modes. -/
inductive FetchError
  | tooManyRedirects
  | downloadFailed (status : Nat)
  | networkError
deriving DecidableEq, Repr

/-- The condition of the fetcher's redirect branch:
`res.statusCode >= 300 && res.statusCode < 400 && res.headers.location`. -/
def isRedirectResponse (r : Response) : Bool :=
  decide (300 ≤ r.status) && decide (r.status < 400) && r.location.isSome

/-- `fetch(url, dest, redirects)` from the installer, with the HTTP server
modelled as the list of responses produced for the successive requests of
this download attempt.  On a 3xx response carrying a `Location` header the
fetcher rejects with `tooManyRedirects` when the hop counter already exceeds
5, and otherwise recurses on the next response with the counter incremented;
a non-redirect, non-200 response rejects with `downloadFailed`; a 200
response resolves.  An exhausted response list stands for a request-level
error (`request.on('error')`). -/
def fetchGo : List Response → Nat → Except FetchError Unit
  | [], _ => Except.error FetchError.networkError
  | r :: rest, redirects =>
    if isRedirectResponse r then
      if redirects > 5 then Except.error FetchError.tooManyRedirects
      else fetchGo rest (redirects + 1)
    else if r.status ≠ 200 then Except.error (FetchError.downloadFailed r.status)
    else Except.ok ()

/-- Entry point of the fetch: `fetch(url, dest)` starts with `redirects = 0`. -/
def fetchResponses (rs : List Response) : Except FetchError Unit := fetchGo rs 0

example : fetchResponses [⟨200, none⟩] = Except.ok () := rfl
example : fetchResponses [⟨404, none⟩] = Except.error (FetchError.downloadFailed 404) := rfl

/-- Observable side effects of one installer run, in program order. -/
inductive Event
  | skipMessage
  | resolveFailed (rawPlatform rawArch : String)
  | mkdirBinDir
  | fetchStart (url : String)
  | extractStart
  | chmodAttempt
  | chmodWarning
  | removeArchive
deriving DecidableEq, Repr

/-- The world one installer run executes in: the environment variables and
process identifiers it reads, whether the expected binary already exists,
the responses the HTTP server would produce, and how the external extractor
and `chmodSync` would behave if invoked. -/
structure InstallEnv where
  skip : Bool
  rawPlatform : String
  rawArch : String
  version : String
  binaryHost : String
  binaryExists : Bool
  responses : List Response
  extractOk : Bool
  chmodFails : Bool
deriving Repr

/-- The installer script (`src/unnamed/part_000`) as a whole, returning its
event trace and process exit code.  Mirrors the source order: the
`EASYGIT_SKIP_POSTINSTALL` guard, then platform/arch resolution (exit 1 when
either lookup fails), then the `fs.existsSync(binaryPath)` guard (exit 0),
then `mkdirSync` and the async body: `fetch`, `extract`, `ensureExecutable`
(a no-op on windows; a failed `chmodSync` only logs a warning), `rmSync` of
the archive; any rejection lands in the catch block, which exits 1. -/
def install (env : InstallEnv) : List Event × Nat :=
  if env.skip then ([Event.skipMessage], 0)
  else
    match PLATFORM_MAP env.rawPlatform, ARCH_MAP env.rawArch with
    | some platform, some arch =>
      if env.binaryExists then ([], 0)
      else
        let isWindows := env.rawPlatform == "win32"
        let url := downloadUrl env.binaryHost env.version platform arch isWindows
        let pre := [Event.mkdirBinDir, Event.fetchStart url]
        match fetchResponses env.responses with
        | Except.error _ => (pre, 1)
        | Except.ok () =>
          if env.extractOk then
            let chmodEvents :=
              if isWindows then []
              else if env.chmodFails then [Event.chmodAttempt, Event.chmodWarning]
              else [Event.chmodAttempt]
            (pre ++ [Event.extractStart] ++ chmodEvents ++ [Event.removeArchive], 0)
          else (pre ++ [Event.extractStart], 1)
    | _, _ => ([Event.resolveFailed env.rawPlatform env.rawArch], 1)

/-- Outcome of a launcher once its child's `exit` event fires. -/
inductive LaunchOutcome
  | exitWith (code : Int)
  | killSelf (signal : String)
deriving DecidableEq, Repr

/-- The `child.on('exit', (code, signal) => ...)` handler of the npm package
launcher `src/npm/bin/easygit.js`: when `signal` is non-null the launcher
re-delivers it to itself via `process.kill(process.pid, signal)`; otherwise
it calls `process.exit(code === undefined ? 0 : code)` (a null `code` makes
the process exit 0). -/
def npmOnExit (code : Option Int) (signal : Option String) : LaunchOutcome :=
  match signal with
  | some s => LaunchOutcome.killSelf s
  | none => LaunchOutcome.exitWith (code.getD 0)

/-- The `child.on("exit", (code) => process.exit(code ?? 0))` handler of the
development launcher `src/unnamed/part_001`: the signal argument is ignored
and a null `code` (signal death) becomes `process.exit(0)`. -/
def devOnExit (code : Option Int) (signal : Option String) : LaunchOutcome :=
  match code, signal with
  | c, _ => LaunchOutcome.exitWith (c.getD 0)

/-- `` binaryName = process.platform === "win32" ? "easygit.exe" : "easygit" ``
in the development launcher. -/
def launcherBinaryName (rawPlatform : String) : String :=
  if rawPlatform == "win32" then "easygit.exe" else "easygit"

/-- Segment joining for `path.join`; the launcher's candidate paths are plain
segment concatenations, so no normalization is involved beyond inserting the
separator. -/
def pathJoin (segments : List String) : String :=
  String.intercalate "/" segments

/-- The development launcher's ordered candidate list: the
platform/architecture-qualified subdirectory of `bin` first, then the flat
`bin` fallback. -/
def candidates (dirname rawPlatform rawArch : String) : List String :=
  [pathJoin [dirname, "..", "bin", rawPlatform ++ "-" ++ rawArch,
      launcherBinaryName rawPlatform],
   pathJoin [dirname, "..", "bin", launcherBinaryName rawPlatform]]

/-- The development launcher's error message when no candidate exists:
`` `easygit binary not found. Expected at: ${candidates.join(", ")}.` ``
followed by the remediation hint. -/
def notFoundMessage (cs : List String) : String :=
  "easygit binary not found. Expected at: " ++ String.intercalate ", " cs ++
    ".\nBuild with `cargo build --release` and copy target binary into npm/bin/."

/-- What the development launcher does before its child runs. -/
inductive LaunchStart
  | spawnBinary (path : String) (args : List String)
  | failNotFound (message : String) (exitCode : Nat)
deriving DecidableEq, Repr

/-- The path-selection phase of the development launcher
(`src/unnamed/part_001`): `candidates.find(fs.existsSync)`; when no
candidate exists it prints the message listing every candidate and exits
with status 1, otherwise it spawns the first existing candidate with the
forwarded arguments. -/
def launcherMain (fsExists : String → Bool) (dirname rawPlatform rawArch : String)
    (args : List String) : LaunchStart :=
  let cs := candidates dirname rawPlatform rawArch
  match cs.find? fsExists with
  | some p => LaunchStart.spawnBinary p args
  | none => LaunchStart.failNotFound (notFoundMessage cs) 1

/-- Recognizer for download-start events, used to count fetch attempts. -/
def eventIsFetchStart : Event → Bool
  | Event.fetchStart _ => true
  | _ => false

lemma fetchGo_skip_redirects :
    ∀ (rs rest : List Response) (n : Nat),
      (∀ r ∈ rs, isRedirectResponse r = true) → n + rs.length ≤ 6 →
      fetchGo (rs ++ rest) n = fetchGo rest (n + rs.length)
  | [], rest, n, _, _ => by simp
  | r :: rs, rest, n, hred, hle => by
    have hr : isRedirectResponse r = true := hred r (List.mem_cons_self r rs)
    have hn : ¬ n > 5 := by simp only [List.length_cons] at hle; omega
    simp only [List.cons_append, fetchGo, hr, if_true, if_neg hn, List.append_eq]
    rw [fetchGo_skip_redirects rs rest (n + 1)
        (fun x hx => hred x (List.mem_cons_of_mem r hx))
        (by simp only [List.length_cons] at hle; omega)]
    congr 1
    simp only [List.length_cons]
    omega

lemma fetchGo_overflow (r : Response) (rest : List Response) (n : Nat)
    (hr : isRedirectResponse r = true) (hn : 5 < n) :
    fetchGo (r :: rest) n = Except.error FetchError.tooManyRedirects := by
  simp [fetchGo, hr, hn]

/-- C1 counterexample: a redirect chain of exactly 6 hops ending in a 200
is fully followed and succeeds, instead of failing with
`TooManyRedirects` as the claim states. -/
theorem c1_chain_of_six_succeeds :
    fetchResponses (List.replicate 6 ⟨301, some "u"⟩ ++ [⟨200, none⟩]) = Except.ok () ∧
    fetchResponses (List.replicate 6 ⟨301, some "u"⟩ ++ [⟨200, none⟩]) ≠
      Except.error FetchError.tooManyRedirects := by
  constructor
  · rfl
  · intro h
    rw [show fetchResponses (List.replicate 6 ⟨301, some "u"⟩ ++ [⟨200, none⟩]) =
          Except.ok () from rfl] at h
    exact Except.noConfusion h

/-- C1 (amended): the fetcher checks `redirects > 5` before following, with
the counter incremented per followed hop, so any chain of at most 6 redirect
hops ending in a 200 succeeds and a chain of 7 redirect hops fails with
`TooManyRedirects` instead of being followed further. -/
theorem c1_redirect_bound (rs : List Response)
    (hred : ∀ r ∈ rs, isRedirectResponse r = true) :
    (rs.length ≤ 6 → fetchResponses (rs ++ [⟨200, none⟩]) = Except.ok ()) ∧
    (rs.length = 7 → fetchResponses (rs ++ [⟨200, none⟩]) =
      Except.error FetchError.tooManyRedirects) := by
  constructor
  · intro h
    rw [fetchResponses, fetchGo_skip_redirects rs _ 0 hred (by omega)]
    simp [fetchGo, isRedirectResponse]
  · intro h
    obtain ⟨r, b, hb⟩ : ∃ r b, rs.drop 6 = r :: b := by
      cases hdrop : rs.drop 6 with
      | nil =>
        have := List.length_drop 6 rs
        rw [hdrop, h] at this
        simp at this
      | cons r b => exact ⟨r, b, rfl⟩
    have htake : (rs.take 6).length = 6 := by
      rw [List.length_take]
      omega
    have hmemr : r ∈ rs := List.mem_of_mem_drop (by rw [hb]; exact List.mem_cons_self r b)
    calc fetchResponses (rs ++ [⟨200, none⟩])
        = fetchGo ((rs.take 6 ++ rs.drop 6) ++ [⟨200, none⟩]) 0 := by
          rw [fetchResponses, List.take_append_drop]
      _ = fetchGo (rs.take 6 ++ (rs.drop 6 ++ [⟨200, none⟩])) 0 := by
          rw [List.append_assoc]
      _ = fetchGo (rs.drop 6 ++ [⟨200, none⟩]) (0 + (rs.take 6).length) :=
          fetchGo_skip_redirects _ _ 0
            (fun x hx => hred x (List.mem_of_mem_take hx)) (by omega)
      _ = Except.error FetchError.tooManyRedirects := by
          rw [hb, List.cons_append]
          exact fetchGo_overflow r _ _ (hred r hmemr) (by omega)

/-- C1 witness: a 6-hop chain succeeds and a 7-hop chain fails, at concrete
redirect responses. -/
theorem c1_redirect_bound_witness :
    fetchResponses (List.replicate 6 ⟨302, some "v"⟩ ++ [⟨200, none⟩]) = Except.ok () ∧
    fetchResponses (List.replicate 7 ⟨302, some "v"⟩ ++ [⟨200, none⟩]) =
      Except.error FetchError.tooManyRedirects :=
  ⟨(c1_redirect_bound (List.replicate 6 ⟨302, some "v"⟩) (by decide)).1 (by decide),
   (c1_redirect_bound (List.replicate 7 ⟨302, some "v"⟩) (by decide)).2 (by decide)⟩

/-- C10: a 3xx response without a `Location` header is not followed as a
redirect: the fetch falls through to the non-200 branch and fails with a
download-failed error carrying that 3xx status. -/
theorem c10_redirect_without_location (s : Nat) (rest : List Response) (n : Nat)
    (h3 : 300 ≤ s) (h4 : s < 400) :
    fetchGo (⟨s, none⟩ :: rest) n = Except.error (FetchError.downloadFailed s) := by
  have hnr : isRedirectResponse ⟨s, none⟩ = false := by
    simp [isRedirectResponse]
  have hs : s ≠ 200 := by omega
  simp [fetchGo, hnr, hs]

/-- C10 witness: a 301 with no `Location` header fails with
`DownloadFailed(301)`. -/
theorem c10_redirect_without_location_witness :
    fetchGo [⟨301, none⟩] 0 = Except.error (FetchError.downloadFailed 301) :=
  c10_redirect_without_location 301 [] 0 (by decide) (by decide)

/-- The spec's fixed platform mapping table. -/
def specPlatformTable : List (String × String) :=
  [("darwin", "macos"), ("linux", "linux"), ("win32", "windows")]

/-- The spec's fixed architecture mapping table. -/
def specArchTable : List (String × String) :=
  [("x64", "x64"), ("arm64", "arm64")]

lemma PLATFORM_MAP_eq_none (rp : String) (h : rp ∉ ["darwin", "linux", "win32"]) :
    PLATFORM_MAP rp = none := by
  unfold PLATFORM_MAP
  split <;> simp_all

lemma ARCH_MAP_eq_none (ra : String) (h : ra ∉ ["x64", "arm64"]) :
    ARCH_MAP ra = none := by
  unfold ARCH_MAP
  split <;> simp_all

/-- C4: for every raw pair in the fixed mapping table the resolver returns
exactly the canonical pair; for any pair with either identifier outside the
table it fails, reporting the literal raw values, with no fallback. -/
theorem c4_platform_resolver (rp ra cp ca : String) :
    ((rp, cp) ∈ specPlatformTable → (ra, ca) ∈ specArchTable →
      resolvePlatformArch rp ra = Except.ok (cp, ca)) ∧
    (rp ∉ ["darwin", "linux", "win32"] ∨ ra ∉ ["x64", "arm64"] →
      resolvePlatformArch rp ra = Except.error (rp, ra)) := by
  constructor
  · intro hp ha
    simp only [specPlatformTable, specArchTable, List.mem_cons,
      List.not_mem_nil, or_false, Prod.mk.injEq] at hp ha
    rcases hp with ⟨h1, h2⟩ | ⟨h1, h2⟩ | ⟨h1, h2⟩ <;>
      rcases ha with ⟨h3, h4⟩ | ⟨h3, h4⟩ <;> subst_vars <;> rfl
  · intro h
    have hnone : PLATFORM_MAP rp = none ∨ ARCH_MAP ra = none := by
      rcases h with h | h
      · exact Or.inl (PLATFORM_MAP_eq_none rp h)
      · exact Or.inr (ARCH_MAP_eq_none ra h)
    unfold resolvePlatformArch
    rcases hnone with hn | hn
    · rw [hn]
    · rw [hn]
      cases PLATFORM_MAP rp <;> rfl

/-- C4 witness: a supported pair resolves to its canonical names and an
unsupported platform fails with the raw values. -/
theorem c4_platform_resolver_witness :
    resolvePlatformArch "darwin" "arm64" = Except.ok ("macos", "arm64") ∧
    resolvePlatformArch "freebsd" "x64" = Except.error ("freebsd", "x64") :=
  ⟨(c4_platform_resolver "darwin" "arm64" "macos" "arm64").1 (by decide) (by decide),
   (c4_platform_resolver "freebsd" "x64" "" "").2 (Or.inl (by decide))⟩

lemma url_shape (host version p a : String) (w : Bool) :
    downloadUrl host version p a w =
      host ++ "/v" ++ version ++ "/easygit-" ++ p ++ "-" ++ a ++
        (if w then ".zip" else ".tar.gz") := by
  unfold downloadUrl releaseTag archiveName
  rw [show ("/v" : String) = "/" ++ "v" from rfl,
    show ("/easygit-" : String) = "/" ++ "easygit-" from rfl]
  simp only [String.append_assoc]

/-- C5: for every resolved platform/arch pair the installer's URL equals the
spec's `ReleaseLocator` shape `<host>/v<version>/easygit-<platform>-<arch><ext>`
with `.zip` exactly for windows and `.tar.gz` otherwise, and the two concrete
examples of the spec evaluate as stated. -/
theorem c5_release_url :
    (∀ host version rp ra p a, PLATFORM_MAP rp = some p → ARCH_MAP ra = some a →
      downloadUrl host version p a (rp == "win32") = ReleaseLocator host version p a) ∧
    ReleaseLocator "https://h" "1.2.3" "windows" "x64" =
      "https://h/v1.2.3/easygit-windows-x64.zip" ∧
    ReleaseLocator "https://h" "1.2.3" "linux" "arm64" =
      "https://h/v1.2.3/easygit-linux-arm64.tar.gz" := by
  refine ⟨?_, by decide, by decide⟩
  intro host version rp ra p a hp ha
  have hw : (rp == "win32") = (p == "windows") := by
    unfold PLATFORM_MAP at hp
    split at hp <;> simp_all <;> subst hp <;> decide
  rw [url_shape, hw]
  rfl

/-- C5 witness: the general equality at the concrete resolved pair
`win32`/`x64`. -/
theorem c5_release_url_witness :
    downloadUrl "https://h" "1.2.3" "windows" "x64" ("win32" == "win32") =
      ReleaseLocator "https://h" "1.2.3" "windows" "x64" :=
  c5_release_url.1 "https://h" "1.2.3" "win32" "x64" "windows" "x64" rfl rfl

/-- C3: when the expected binary already exists at its target path before the
run (and the skip guard and platform gate do not fail first), the installer
exits with status 0 and its trace contains no download start — no
`DownloadTarget` is fetched and no network access occurs. -/
theorem c3_install_idempotent (env : InstallEnv)
    (hp : (PLATFORM_MAP env.rawPlatform).isSome = true)
    (ha : (ARCH_MAP env.rawArch).isSome = true)
    (hb : env.binaryExists = true) :
    (install env).2 = 0 ∧ ∀ url, Event.fetchStart url ∉ (install env).1 := by
  obtain ⟨p, hp'⟩ := Option.isSome_iff_exists.mp hp
  obtain ⟨a, ha'⟩ := Option.isSome_iff_exists.mp ha
  have hinstall : install env =
      (if env.skip then ([Event.skipMessage], 0) else ([], 0)) := by
    unfold install
    by_cases hs : env.skip
    · rw [if_pos hs, if_pos hs]
    · rw [if_neg hs, if_neg hs, hp', ha']
      simp [hb]
  rw [hinstall]
  by_cases hs : env.skip
  · rw [if_pos hs]
    exact ⟨rfl, fun url h => by simp at h⟩
  · rw [if_neg hs]
    exact ⟨rfl, fun url h => by simp at h⟩

/-- C3 witness: a concrete run on supported `linux`/`x64` with the binary
already present exits 0 without fetching. -/
theorem c3_install_idempotent_witness :
    (install ⟨false, "linux", "x64", "1.0.0", "https://h", true, [], true, false⟩).2 = 0 ∧
    ∀ url, Event.fetchStart url ∉
      (install ⟨false, "linux", "x64", "1.0.0", "https://h", true, [], true, false⟩).1 :=
  c3_install_idempotent ⟨false, "linux", "x64", "1.0.0", "https://h", true, [], true, false⟩
    (by decide) (by decide) rfl

/-- C9: when `EASYGIT_SKIP_POSTINSTALL=1` is set, the installer prints the
skip diagnostic and exits 0 before anything else, for every raw
platform/arch pair (supported or not): the trace is exactly the diagnostic,
with no resolution failure, no filesystem event and no download start. -/
theorem c9_skip_guard_first (env : InstallEnv) (hs : env.skip = true) :
    install env = ([Event.skipMessage], 0) := by
  unfold install
  rw [if_pos hs]

/-- C9 witness: the skip guard fires even on an unsupported platform pair. -/
theorem c9_skip_guard_first_witness :
    install ⟨true, "freebsd", "mips", "1.0.0", "https://h", false, [], true, false⟩ =
      ([Event.skipMessage], 0) :=
  c9_skip_guard_first ⟨true, "freebsd", "mips", "1.0.0", "https://h", false, [], true, false⟩ rfl

/-- C6: when the final (non-redirect) response of the download has a non-200
status, the fetch fails with `DownloadFailed` carrying that status, the
installer exits 1, extraction is never started, and exactly one download is
attempted (no retry). -/
theorem c6_download_failed (env : InstallEnv) (p a : String) (rs : List Response)
    (s : Nat) (l : Option String)
    (hs : env.skip = false) (hp : PLATFORM_MAP env.rawPlatform = some p)
    (ha : ARCH_MAP env.rawArch = some a) (hb : env.binaryExists = false)
    (hresp : env.responses = rs ++ [⟨s, l⟩])
    (hred : ∀ r ∈ rs, isRedirectResponse r = true) (hlen : rs.length ≤ 6)
    (hfin : isRedirectResponse ⟨s, l⟩ = false) (h200 : s ≠ 200) :
    fetchResponses env.responses = Except.error (FetchError.downloadFailed s) ∧
    (install env).2 = 1 ∧
    Event.extractStart ∉ (install env).1 ∧
    (install env).1.countP eventIsFetchStart = 1 := by
  have hfetch : fetchResponses env.responses =
      Except.error (FetchError.downloadFailed s) := by
    rw [hresp, fetchResponses, fetchGo_skip_redirects rs _ 0 hred (by omega)]
    simp [fetchGo, hfin, h200]
  refine ⟨hfetch, ?_⟩
  have hinstall : install env = ([Event.mkdirBinDir,
      Event.fetchStart (downloadUrl env.binaryHost env.version p a
        (env.rawPlatform == "win32"))], 1) := by
    unfold install
    rw [if_neg (by simp [hs]), hp, ha]
    simp [hb, hfetch]
  rw [hinstall]
  refine ⟨rfl, by simp, ?_⟩
  simp [List.countP_cons, eventIsFetchStart]

/-- C6 witness: a direct 404 yields `DownloadFailed(404)`, exit 1, no
extraction, one fetch attempt. -/
theorem c6_download_failed_witness :
    fetchResponses [⟨404, none⟩] = Except.error (FetchError.downloadFailed 404) ∧
    (install ⟨false, "linux", "x64", "1.0.0", "https://h", false,
        [⟨404, none⟩], true, false⟩).2 = 1 ∧
    Event.extractStart ∉ (install ⟨false, "linux", "x64", "1.0.0", "https://h", false,
        [⟨404, none⟩], true, false⟩).1 ∧
    (install ⟨false, "linux", "x64", "1.0.0", "https://h", false,
        [⟨404, none⟩], true, false⟩).1.countP eventIsFetchStart = 1 :=
  c6_download_failed
    ⟨false, "linux", "x64", "1.0.0", "https://h", false, [⟨404, none⟩], true, false⟩
    "linux" "x64" [] 404 none rfl rfl rfl rfl rfl (by simp) (by decide) (by decide)
    (by decide)

/-- C8: when fetch and extraction succeed, a `chmodSync` failure on a
non-windows platform is non-fatal — the installer still removes the archive
and exits 0, logging a warning — and on windows the permission step is a
no-op (no chmod is ever attempted). -/
theorem c8_chmod_warning_nonfatal (env : InstallEnv) (p a : String)
    (hs : env.skip = false) (hp : PLATFORM_MAP env.rawPlatform = some p)
    (ha : ARCH_MAP env.rawArch = some a) (hb : env.binaryExists = false)
    (hf : fetchResponses env.responses = Except.ok ()) (hx : env.extractOk = true) :
    (env.rawPlatform ≠ "win32" → env.chmodFails = true →
      (install env).2 = 0 ∧ Event.chmodWarning ∈ (install env).1 ∧
        Event.removeArchive ∈ (install env).1) ∧
    (env.rawPlatform = "win32" → Event.chmodAttempt ∉ (install env).1) := by
  have hinstall : install env =
      ([Event.mkdirBinDir, Event.fetchStart (downloadUrl env.binaryHost env.version p a
          (env.rawPlatform == "win32"))]
        ++ [Event.extractStart]
        ++ (if env.rawPlatform == "win32" then []
            else if env.chmodFails then [Event.chmodAttempt, Event.chmodWarning]
            else [Event.chmodAttempt])
        ++ [Event.removeArchive], 0) := by
    unfold install
    rw [if_neg (by simp [hs]), hp, ha]
    simp [hb, hf, hx]
  constructor
  · intro hw hc
    have hwb : (env.rawPlatform == "win32") = false := by
      simp [hw]
    rw [hwb, hc] at hinstall
    rw [hinstall]
    refine ⟨rfl, by simp, by simp⟩
  · intro hw
    have hwb : (env.rawPlatform == "win32") = true := by
      simp [hw]
    rw [hwb] at hinstall
    rw [hinstall]
    simp

/-- C8 witness: on `linux`/`x64` with a failing chmod, the install still
cleans up and exits 0 with a warning in the trace. -/
theorem c8_chmod_warning_nonfatal_witness :
    (install ⟨false, "linux", "x64", "1.0.0", "https://h", false,
        [⟨200, none⟩], true, true⟩).2 = 0 ∧
    Event.chmodWarning ∈ (install ⟨false, "linux", "x64", "1.0.0", "https://h", false,
        [⟨200, none⟩], true, true⟩).1 ∧
    Event.removeArchive ∈ (install ⟨false, "linux", "x64", "1.0.0", "https://h", false,
        [⟨200, none⟩], true, true⟩).1 :=
  (c8_chmod_warning_nonfatal
    ⟨false, "linux", "x64", "1.0.0", "https://h", false, [⟨200, none⟩], true, true⟩
    "linux" "x64" rfl rfl rfl rfl rfl rfl).1 (by decide) rfl

/-- C2 counterexample: the development launcher (`src/unnamed/part_001`), on
a child killed by a signal (exit event `(null, "SIGTERM")`), exits with the
substitute code 0 instead of re-delivering the signal to itself. -/
theorem c2_dev_signal_counterexample :
    devOnExit none (some "SIGTERM") = LaunchOutcome.exitWith 0 ∧
    devOnExit none (some "SIGTERM") ≠ LaunchOutcome.killSelf "SIGTERM" := by
  decide

/-- C2 (amended): the npm package launcher (`src/npm/bin/easygit.js`)
propagates a normal exit code identically and re-delivers the child's death
signal to itself; the development launcher (`src/unnamed/part_001`)
propagates normal exit codes but maps signal-death to exit code 0. -/
theorem c2_exit_propagation (n : Int) (s : String) :
    npmOnExit (some n) none = LaunchOutcome.exitWith n ∧
    npmOnExit none (some s) = LaunchOutcome.killSelf s ∧
    devOnExit (some n) none = LaunchOutcome.exitWith n ∧
    devOnExit none (some s) = LaunchOutcome.exitWith 0 :=
  ⟨rfl, rfl, rfl, rfl⟩

lemma notFoundMessage_pair (c1 c2 : String) :
    notFoundMessage [c1, c2] =
      "easygit binary not found. Expected at: " ++ c1 ++ ", " ++ c2 ++
        ".\nBuild with `cargo build --release` and copy target binary into npm/bin/." := by
  unfold notFoundMessage
  rw [show String.intercalate ", " [c1, c2] = c1 ++ ", " ++ c2 from rfl]
  simp only [String.append_assoc]

/-- The npm package launcher's single binary path:
`` binaryPath = path.join(__dirname, binaryName) `` in
`src/npm/bin/easygit.js`. -/
def npmBinaryPath (dirname rawPlatform : String) : String :=
  pathJoin [dirname, launcherBinaryName rawPlatform]

/-- The path-check phase of the npm package launcher
(`src/npm/bin/easygit.js`): it consults exactly one path, the flat
`binaryPath` next to itself; when `fs.existsSync(binaryPath)` fails it
prints the two error lines naming that path and exits with status 1,
otherwise it spawns that binary with the forwarded arguments. -/
def npmLauncherMain (fsExists : String → Bool) (dirname rawPlatform : String)
    (args : List String) : LaunchStart :=
  let binaryPath := npmBinaryPath dirname rawPlatform
  if fsExists binaryPath then LaunchStart.spawnBinary binaryPath args
  else
    LaunchStart.failNotFound
      ("easygit binary not found at " ++ binaryPath ++
        ".\nTry reinstalling the package or set EASYGIT_BINARY_HOST to a reachable release URL.")
      1

/-- C7 counterexample: an invocation of the npm package launcher in which a
binary exists at the platform/architecture-qualified candidate path (indeed
at every path except the launcher's flat one): the claimed ordered search
would select that qualified candidate, but the npm launcher never consults
it — it fails with status 1, its message naming only the flat path. -/
theorem c7_npm_single_path_counterexample :
    (fun s => !(s == npmBinaryPath "/d" "linux"))
      (pathJoin ["/d", "..", "bin", "linux" ++ "-" ++ "x64",
        launcherBinaryName "linux"]) = true ∧
    npmLauncherMain (fun s => !(s == npmBinaryPath "/d" "linux")) "/d" "linux" [] =
      LaunchStart.failNotFound
        ("easygit binary not found at " ++ npmBinaryPath "/d" "linux" ++
          ".\nTry reinstalling the package or set EASYGIT_BINARY_HOST to a reachable release URL.")
        1 ∧
    npmLauncherMain (fun s => !(s == npmBinaryPath "/d" "linux")) "/d" "linux" [] ≠
      LaunchStart.spawnBinary
        (pathJoin ["/d", "..", "bin", "linux" ++ "-" ++ "x64",
          launcherBinaryName "linux"]) [] := by
  refine ⟨rfl, rfl, ?_⟩
  decide

/-- C7 (amended): the development launcher (`src/unnamed/part_001`) searches
the qualified candidate first and the flat fallback second, selecting the
first existing one, and when neither exists fails with exit status 1 and a
message in which every searched path occurs; the npm package launcher
(`src/npm/bin/easygit.js`) checks only the single flat path next to itself
and, when it is absent, fails with exit status 1 and a message in which that
path occurs. -/
theorem c7_launcher_candidate_search (fsExists : String → Bool) (dirname rp ra : String)
    (args : List String) :
    (fsExists (pathJoin [dirname, "..", "bin", rp ++ "-" ++ ra,
        launcherBinaryName rp]) = true →
      launcherMain fsExists dirname rp ra args =
        LaunchStart.spawnBinary (pathJoin [dirname, "..", "bin", rp ++ "-" ++ ra,
          launcherBinaryName rp]) args) ∧
    (fsExists (pathJoin [dirname, "..", "bin", rp ++ "-" ++ ra,
        launcherBinaryName rp]) = false →
      fsExists (pathJoin [dirname, "..", "bin", launcherBinaryName rp]) = true →
      launcherMain fsExists dirname rp ra args =
        LaunchStart.spawnBinary (pathJoin [dirname, "..", "bin",
          launcherBinaryName rp]) args) ∧
    (fsExists (pathJoin [dirname, "..", "bin", rp ++ "-" ++ ra,
        launcherBinaryName rp]) = false →
      fsExists (pathJoin [dirname, "..", "bin", launcherBinaryName rp]) = false →
      ∃ msg, launcherMain fsExists dirname rp ra args =
          LaunchStart.failNotFound msg 1 ∧
        (∃ u v, msg = u ++ pathJoin [dirname, "..", "bin", rp ++ "-" ++ ra,
          launcherBinaryName rp] ++ v) ∧
        (∃ u v, msg = u ++ pathJoin [dirname, "..", "bin",
          launcherBinaryName rp] ++ v)) ∧
    (fsExists (npmBinaryPath dirname rp) = true →
      npmLauncherMain fsExists dirname rp args =
        LaunchStart.spawnBinary (npmBinaryPath dirname rp) args) ∧
    (fsExists (npmBinaryPath dirname rp) = false →
      ∃ msg, npmLauncherMain fsExists dirname rp args =
          LaunchStart.failNotFound msg 1 ∧
        ∃ u v, msg = u ++ npmBinaryPath dirname rp ++ v) := by
  refine ⟨?_, ?_, ?_, ?_, ?_⟩
  · intro h1
    simp [launcherMain, candidates, List.find?, h1]
  · intro h1 h2
    simp [launcherMain, candidates, List.find?, h1, h2]
  · intro h1 h2
    refine ⟨notFoundMessage (candidates dirname rp ra), ?_, ?_, ?_⟩
    · simp [launcherMain, List.find?, candidates, h1, h2]
    · refine ⟨"easygit binary not found. Expected at: ",
        ", " ++ pathJoin [dirname, "..", "bin", launcherBinaryName rp] ++
          ".\nBuild with `cargo build --release` and copy target binary into npm/bin/.", ?_⟩
      rw [candidates, notFoundMessage_pair]
      simp only [String.append_assoc]
    · refine ⟨"easygit binary not found. Expected at: " ++
          pathJoin [dirname, "..", "bin", rp ++ "-" ++ ra, launcherBinaryName rp] ++ ", ",
        ".\nBuild with `cargo build --release` and copy target binary into npm/bin/.", ?_⟩
      rw [candidates, notFoundMessage_pair]
  · intro h1
    simp [npmLauncherMain, h1]
  · intro h1
    refine ⟨"easygit binary not found at " ++ npmBinaryPath dirname rp ++
        ".\nTry reinstalling the package or set EASYGIT_BINARY_HOST to a reachable release URL.",
      ?_, "easygit binary not found at ",
      ".\nTry reinstalling the package or set EASYGIT_BINARY_HOST to a reachable release URL.",
      rfl⟩
    simp [npmLauncherMain, h1]

/-- C7 witness: with no candidate existing, the development launcher fails
with status 1 and a message containing both searched paths, and the npm
launcher fails with status 1 and a message containing its flat path. -/
theorem c7_launcher_candidate_search_witness :
    (∃ msg, launcherMain (fun _ => false) "/d" "linux" "x64" [] =
        LaunchStart.failNotFound msg 1 ∧
      (∃ u v, msg = u ++ pathJoin ["/d", "..", "bin", "linux" ++ "-" ++ "x64",
        launcherBinaryName "linux"] ++ v) ∧
      (∃ u v, msg = u ++ pathJoin ["/d", "..", "bin",
        launcherBinaryName "linux"] ++ v)) ∧
    (∃ msg, npmLauncherMain (fun _ => false) "/d" "linux" [] =
        LaunchStart.failNotFound msg 1 ∧
      ∃ u v, msg = u ++ npmBinaryPath "/d" "linux" ++ v) :=
  ⟨(c7_launcher_candidate_search (fun _ => false) "/d" "linux" "x64" []).2.2.1 rfl rfl,
   (c7_launcher_candidate_search (fun _ => false) "/d" "linux" "x64" []).2.2.2.2 rfl⟩
